import Mathlib

/-!
Shallow embedding of the Heltec LoRa bridge firmware
(`src/heltec_firmware/heltec_firmware.ino`, bridge sketch) and of the
serial-echo test sketch (`src/unnamed/part_000`).

Modelling conventions:
* Messages are `List Char` (Arduino `String`).
* Library calls whose results the firmware branches on (`Serial.available`,
  `Serial.readStringUntil`, `lora.transmit`, `lora.receive`, `millis`)
  are oracle inputs gathered in a `LoopInput` record, one per loop iteration.
* Each observable side effect of an iteration is an `Action`; a loop
  iteration returns the updated persistent state plus the list of actions
  in program order. A full display render sequence
  (`display.clear(); drawString ...; display.display()`) is modelled as a
  single `Action.displayEvent` carrying the rendered event.
* `Serial.println s` / `Serial2.println s` (write `s` plus the line
  terminator) is modelled as `Action.serialPrintln s`.
* RadioLib status codes are `Int`; `RADIOLIB_ERR_NONE = 0` and
  `RADIOLIB_ERR_RX_TIMEOUT = -6` as in the RadioLib headers.
* `millis()` arithmetic on `unsigned long` is 32-bit wrap-around
  subtraction, modelled by `msub`.
-/

namespace HeltecBridge

/-- C `isspace`: the whitespace characters removed by Arduino
`String::trim()`. -/
def isSpaceC (c : Char) : Bool :=
  c = ' ' || c = '\t' || c = '\n' || c = '\x0b' || c = '\x0c' || c = '\r'

/-- Arduino `String::trim()`: strip leading and trailing whitespace. -/
def trim (s : List Char) : List Char :=
  ((s.dropWhile isSpaceC).reverse.dropWhile isSpaceC).reverse

/-- RadioLib success status code. -/
def RADIOLIB_ERR_NONE : Int := 0

/-- RadioLib receive-timeout status code. -/
def RADIOLIB_ERR_RX_TIMEOUT : Int := -6

/-- Unsigned 32-bit (`unsigned long`) subtraction `a - b` as computed by the C code. -/
def msub (a b : Nat) : Nat := (a + 2 ^ 32 - b) % 2 ^ 32

/-- The distinct screens the firmware renders on the OLED. Screens that
show a payload carry it. -/
inductive Event where
  | txOk (msg : List Char)
  | rxOk (msg : List Char)
  | rxError (code : Int)
  | idle
  | initScreen
  | readyScreen
  | failScreen
  | piMsg (preview : List Char)
  | piWaiting
  deriving DecidableEq

/-- Observable side effects of the firmware, in program order. -/
inductive Action where
  | standby
  | delayMs (n : Nat)
  | transmit (payload : List Char)
  | startReceive
  | serialPrintln (bytes : List Char)
  | displayEvent (e : Event)
  deriving DecidableEq

/-- Oracle inputs consumed by one iteration of the bridge `loop()`. -/
structure LoopInput where
  serialAvailable : Bool
  serialLine : List Char
  txState : Int
  rxState : Int
  rxMessage : List Char
  millisAtCheck : Nat
  millisAtSet : Nat
  deriving DecidableEq

/-- Persistent state of the bridge `loop()`: the `static unsigned long
lastActivity` used by the heartbeat block. -/
structure LoopState where
  lastActivity : Nat
  deriving DecidableEq

/-- Serial-to-radio block of `loop()` (lines 193-217): if serial data is
available, read one line, trim it; if non-empty, go to standby, wait 5 ms,
transmit it, on success render the TX-OK screen and pause 100 ms, and
re-enter receive mode. -/
def serialToRadioStep (inp : LoopInput) : List Action :=
  if inp.serialAvailable then
    let outgoingMessage := trim inp.serialLine
    if outgoingMessage.length > 0 then
      [Action.standby, Action.delayMs 5, Action.transmit outgoingMessage] ++
      (if inp.txState = RADIOLIB_ERR_NONE then
        [Action.displayEvent (Event.txOk outgoingMessage), Action.delayMs 100]
      else []) ++
      [Action.startReceive]
    else []
  else []

/-- Radio-to-serial block of `loop()` (lines 220-241): poll the radio; on
success forward the message to serial and render the RX-OK screen; on a
non-timeout error render the RX-Error screen; on timeout do nothing. -/
def radioToSerialStep (inp : LoopInput) : List Action :=
  if inp.rxState = RADIOLIB_ERR_NONE then
    [Action.serialPrintln inp.rxMessage,
     Action.displayEvent (Event.rxOk inp.rxMessage), Action.delayMs 100]
  else if inp.rxState ≠ RADIOLIB_ERR_RX_TIMEOUT then
    [Action.displayEvent (Event.rxError inp.rxState), Action.delayMs 100]
  else []

/-- Heartbeat block of `loop()` (lines 244-252): when more than 1000 ms
have elapsed since `lastActivity`, render the idle screen and store
`millis()` into `lastActivity`. -/
def heartbeatStep (st : LoopState) (inp : LoopInput) : LoopState × List Action :=
  if msub inp.millisAtCheck st.lastActivity > 1000 then
    (⟨inp.millisAtSet⟩, [Action.displayEvent Event.idle])
  else (st, [])

/-- One iteration of the bridge `loop()` (lines 191-253): the three blocks
in program order; only the heartbeat block touches persistent state. -/
def loopStep (st : LoopState) (inp : LoopInput) : LoopState × List Action :=
  ((heartbeatStep st inp).1,
   serialToRadioStep inp ++ (radioToSerialStep inp ++ (heartbeatStep st inp).2))

/-- Whole-system state: `setup()`'s `while (true);` lockup on a failed
`lora.begin` is modelled as the terminal `fault` state (cf. the design
note that reimplementations model the spin as an explicit terminal
state). -/
inductive SysState where
  | fault
  | running (ls : LoopState)
  deriving DecidableEq

/-- Startup routine `setup()` (lines 155-189): render the init screen; if `lora.begin`
succeeds, configure the radio, start receive mode and render the ready
screen; otherwise render the FAILED screen and lock up. The radio
parameter-setting calls have no observable effect modelled here. -/
def setup (beginResult : Int) : SysState × List Action :=
  if beginResult = RADIOLIB_ERR_NONE then
    (SysState.running ⟨0⟩,
     [Action.displayEvent Event.initScreen, Action.startReceive,
      Action.displayEvent Event.readyScreen])
  else
    (SysState.fault,
     [Action.displayEvent Event.initScreen, Action.displayEvent Event.failScreen])

/-- One scheduler step of the whole system: in `fault` nothing runs; when
running, execute one `loop()` iteration. -/
def sysStep : SysState → LoopInput → SysState × List Action
  | SysState.fault, _ => (SysState.fault, [])
  | SysState.running ls, inp =>
      ((SysState.running (loopStep ls inp).1), (loopStep ls inp).2)

/-- Run the system over a sequence of per-iteration inputs, concatenating
the emitted actions. -/
def runSys : SysState → List LoopInput → SysState × List Action
  | s, [] => (s, [])
  | s, inp :: rest =>
      ((runSys (sysStep s inp).1 rest).1,
       (sysStep s inp).2 ++ (runSys (sysStep s inp).1 rest).2)

/-- Is this action a radio transmit? -/
def isTransmitA : Action → Bool
  | Action.transmit _ => true
  | _ => false

/-- Is this action a serial line write? -/
def isSerialPrintlnA : Action → Bool
  | Action.serialPrintln _ => true
  | _ => false

/-- Is this action a display render (of any screen)? -/
def isDisplayEventA : Action → Bool
  | Action.displayEvent _ => true
  | _ => false

/-- Is this action a TX-OK screen render? -/
def isTxOkEventA : Action → Bool
  | Action.displayEvent (Event.txOk _) => true
  | _ => false

/-- Is this action an RX-OK screen render? -/
def isRxOkEventA : Action → Bool
  | Action.displayEvent (Event.rxOk _) => true
  | _ => false

/-- Is this action an RX-Error screen render? -/
def isRxErrorEventA : Action → Bool
  | Action.displayEvent (Event.rxError _) => true
  | _ => false

/-- Loop body of `drawWrappedString` (lines 136-153): accumulate characters
into `line`; as soon as the measured width of the accumulated line exceeds
`maxWidth`, draw the accumulated line minus its last character and carry
that character into the next line. Returns the drawn lines in order; the
trailing accumulated line is drawn iff non-empty. `width` abstracts
`display.getStringWidth`. -/
def wrapGo (width : List Char → Nat) (maxWidth : Nat) :
    List Char → List Char → List (List Char)
  | [], line => if line.length > 0 then [line] else []
  | c :: cs, line =>
      if width (line ++ [c]) > maxWidth then
        line :: wrapGo width maxWidth cs [c]
      else
        wrapGo width maxWidth cs (line ++ [c])

/-- Result of `drawWrappedString(display, msg, ...)`: the list of text lines drawn,
top to bottom, for message `msg`, wrapping at pixel width `maxWidth` under
the width-measurement function `width`. -/
def drawWrappedString (width : List Char → Nat) (maxWidth : Nat)
    (msg : List Char) : List (List Char) :=
  wrapGo width maxWidth msg []

/-- The fixed reply marker of the serial-echo test sketch
(`"ECHO: "` in `Serial2.println("ECHO: " + receivedData)`). -/
def echoTag : List Char := "ECHO: ".toList

/-- Oracle inputs consumed by one iteration of the echo sketch `loop()`. -/
structure EchoInput where
  serial2Available : Bool
  serialLine : List Char
  millisAtCheck : Nat
  millisAtSet : Nat
  deriving DecidableEq

/-- Persistent state of the echo sketch `loop()`: the `static unsigned
long lastStatusUpdate`. -/
structure EchoState where
  lastStatusUpdate : Nat
  deriving DecidableEq

/-- One iteration of the echo sketch `loop()` (`src/unnamed/part_000`,
lines 36-67): if Serial2 data is available, read one line, trim it; if
non-empty, render the from-Pi screen (first 10 characters), echo the line
back with the `"ECHO: "` marker, and pause 1000 ms. Independently, when
more than 3000 ms have elapsed since `lastStatusUpdate`, render the
waiting screen and store `millis()`. -/
def echoLoopStep (st : EchoState) (inp : EchoInput) : EchoState × List Action :=
  let serialPart : List Action :=
    if inp.serial2Available then
      let receivedData := trim inp.serialLine
      if receivedData.length > 0 then
        [Action.displayEvent (Event.piMsg (receivedData.take 10)),
         Action.serialPrintln (echoTag ++ receivedData),
         Action.delayMs 1000]
      else []
    else []
  if msub inp.millisAtCheck st.lastStatusUpdate > 3000 then
    (⟨inp.millisAtSet⟩, serialPart ++ [Action.displayEvent Event.piWaiting])
  else (st, serialPart)

/-! ### Lemmas about the display soft-wrap -/

lemma wrapGo_nil_eq (width : List Char → Nat) (m : Nat) (line : List Char) :
    wrapGo width m [] line = if line.length > 0 then [line] else [] := rfl

lemma wrapGo_cons_eq (width : List Char → Nat) (m : Nat) (c : Char)
    (cs line : List Char) :
    wrapGo width m (c :: cs) line =
      if width (line ++ [c]) > m then line :: wrapGo width m cs [c]
      else wrapGo width m cs (line ++ [c]) := rfl

/-- The concatenation of the emitted lines is the pending line followed by
the unprocessed characters: no character is dropped or duplicated. -/
lemma wrapGo_flatten (width : List Char → Nat) (m : Nat) :
    ∀ (cs line : List Char), (wrapGo width m cs line).flatten = line ++ cs := by
  intro cs
  induction cs with
  | nil =>
      intro line
      rw [wrapGo_nil_eq]
      split <;> simp_all
  | cons c cs ih =>
      intro line
      rw [wrapGo_cons_eq]
      split <;> simp [ih]

/-- No emitted line continues past an overflow point: provided every
prefix of the pending line with at least two characters measures within
the maximum width, the same holds for every emitted line — the wrap never
lets a line grow once adding a character has overflowed (a single
character that alone overflows is the unavoidable character-granular
exception: it cannot be split further). -/
lemma wrapGo_lines_bounded (width : List Char → Nat) (m : Nat) :
    ∀ (cs line : List Char),
      (∀ p : List Char, p <+: line → 2 ≤ p.length → width p ≤ m) →
      ∀ l ∈ wrapGo width m cs line,
        ∀ p : List Char, p <+: l → 2 ≤ p.length → width p ≤ m := by
  intro cs
  induction cs with
  | nil =>
      intro line hline l hl
      rw [wrapGo_nil_eq] at hl
      split at hl <;> simp at hl
      subst hl
      exact hline
  | cons c cs ih =>
      intro line hline l hl
      rw [wrapGo_cons_eq] at hl
      by_cases hw : width (line ++ [c]) > m
      · rw [if_pos hw] at hl
        rcases List.mem_cons.mp hl with h | h
        · subst h
          exact hline
        · refine ih [c] ?_ l h
          intro p hp hlen
          have := hp.length_le
          simp at this
          omega
      · rw [if_neg hw] at hl
        refine ih (line ++ [c]) ?_ l hl
        intro p hp hlen
        by_cases hpl : p.length ≤ line.length
        · exact hline p
            (List.prefix_of_prefix_length_le hp (List.prefix_append line [c]) hpl)
            hlen
        · have hfull : p = line ++ [c] := by
            apply hp.eq_of_length
            have h1 := hp.length_le
            simp at h1 ⊢
            omega
          rw [hfull]
          exact Nat.le_of_not_lt hw

/-- Every break is forced: each emitted line except the last is followed in
the message by a character whose addition would exceed the maximum width. -/
lemma wrapGo_break (width : List Char → Nat) (m : Nat) :
    ∀ (cs line : List Char) (k : Nat),
      k + 1 < (wrapGo width m cs line).length →
      ∃ d rest,
        ((wrapGo width m cs line).drop (k + 1)).flatten = d :: rest ∧
        width ((wrapGo width m cs line).getD k [] ++ [d]) > m := by
  intro cs
  induction cs with
  | nil =>
      intro line k hk
      rw [wrapGo_nil_eq] at hk
      exfalso
      split at hk <;> simp at hk
  | cons c cs ih =>
      intro line k hk
      rw [wrapGo_cons_eq] at hk ⊢
      by_cases hw : width (line ++ [c]) > m
      · rw [if_pos hw] at hk ⊢
        cases k with
        | zero =>
            refine ⟨c, cs, ?_, ?_⟩
            · simp [wrapGo_flatten]
            · simpa using hw
        | succ j =>
            have hk' : j + 1 < (wrapGo width m cs [c]).length := by
              simpa using hk
            obtain ⟨d, rest, h1, h2⟩ := ih [c] j hk'
            exact ⟨d, rest, by simpa using h1, by simpa using h2⟩
      · rw [if_neg hw] at hk ⊢
        exact ih (line ++ [c]) k hk

/-! ### Per-block counting lemmas for the bridge loop -/

lemma serialToRadioStep_counts (inp : LoopInput) :
    (serialToRadioStep inp).countP isSerialPrintlnA = 0 ∧
    (serialToRadioStep inp).countP isRxOkEventA = 0 ∧
    (serialToRadioStep inp).countP isRxErrorEventA = 0 ∧
    (serialToRadioStep inp).countP isTransmitA ≤ 1 := by
  simp only [serialToRadioStep]
  split_ifs <;>
    simp [isSerialPrintlnA, isRxOkEventA, isRxErrorEventA, isTransmitA,
      List.countP_append, List.countP_cons]

lemma radioToSerialStep_counts (inp : LoopInput) :
    (radioToSerialStep inp).countP isTransmitA = 0 ∧
    (radioToSerialStep inp).countP isTxOkEventA = 0 ∧
    (radioToSerialStep inp).countP isSerialPrintlnA ≤ 1 := by
  simp only [radioToSerialStep]
  split_ifs <;>
    simp [isTransmitA, isTxOkEventA, isSerialPrintlnA,
      List.countP_append, List.countP_cons]

lemma heartbeatStep_counts (st : LoopState) (inp : LoopInput) :
    ((heartbeatStep st inp).2).countP isTransmitA = 0 ∧
    ((heartbeatStep st inp).2).countP isSerialPrintlnA = 0 ∧
    ((heartbeatStep st inp).2).countP isTxOkEventA = 0 ∧
    ((heartbeatStep st inp).2).countP isRxOkEventA = 0 ∧
    ((heartbeatStep st inp).2).countP isRxErrorEventA = 0 := by
  simp only [heartbeatStep]
  split_ifs <;>
    simp [isTransmitA, isSerialPrintlnA, isTxOkEventA, isRxOkEventA,
      isRxErrorEventA, List.countP_cons]

/-! ### Claim C1 -/

/-- A loop iteration in which a serial line and a radio datagram are both
ready: serial input `"A"` available, transmit succeeds, and the poll
returns message `"B"`. -/
def bothReady : LoopInput := ⟨true, ['A'], 0, 0, ['B'], 0, 0⟩

/-- Claim C1, counterexample: in a single iteration with both a serial
line and a radio datagram ready, the firmware transmits the serial line
AND forwards the radio datagram — the radio-to-serial path runs even
though a serial line was processed in the same iteration, contrary to the
claim that it is evaluated only when no serial line was processed. -/
theorem radio_path_runs_despite_serial_cex :
    Action.transmit ['A'] ∈ (loopStep ⟨0⟩ bothReady).2 ∧
    Action.serialPrintln ['B'] ∈ (loopStep ⟨0⟩ bothReady).2 := by decide

/-- Claim C1, amended: each iteration runs the serial-to-radio block first
and the radio-to-serial block second unconditionally; the serial block
never writes to serial and the radio block never transmits, each direction
performs at most one action per iteration, and all serial-to-radio actions
precede all radio-to-serial actions in the iteration's trace. -/
theorem loop_one_action_per_direction_serial_first
    (st : LoopState) (inp : LoopInput) :
    (loopStep st inp).2 =
      serialToRadioStep inp ++ (radioToSerialStep inp ++ (heartbeatStep st inp).2) ∧
    (serialToRadioStep inp).countP isSerialPrintlnA = 0 ∧
    (radioToSerialStep inp).countP isTransmitA = 0 ∧
    ((heartbeatStep st inp).2).countP isTransmitA = 0 ∧
    ((heartbeatStep st inp).2).countP isSerialPrintlnA = 0 ∧
    (serialToRadioStep inp).countP isTransmitA ≤ 1 ∧
    (radioToSerialStep inp).countP isSerialPrintlnA ≤ 1 :=
  ⟨rfl, (serialToRadioStep_counts inp).1, (radioToSerialStep_counts inp).1,
   (heartbeatStep_counts st inp).1, (heartbeatStep_counts st inp).2.1,
   (serialToRadioStep_counts inp).2.2.2, (radioToSerialStep_counts inp).2.2⟩

/-! ### Claim C2 -/

/-- A loop iteration whose transmit fails: serial input `"A"` available,
`lora.transmit` returns `-5`, the radio poll times out. -/
def txFailIn : LoopInput := ⟨true, ['A'], -5, -6, [], 0, 0⟩

/-- Claim C2, counterexample: when the transmit of serial line `"A"`
fails (status `-5`), the iteration's trace is exactly standby, settle
delay, transmit, re-arm receive — it contains no display event at all, so
no TX-fail event is recorded, contrary to the claim that the outcome is
recorded in both cases. -/
theorem tx_failure_unreported_cex :
    (loopStep ⟨0⟩ txFailIn).2 =
      [Action.standby, Action.delayMs 5, Action.transmit ['A'],
       Action.startReceive] ∧
    (loopStep ⟨0⟩ txFailIn).2.countP isDisplayEventA = 0 := by decide

/-- Claim C2, amended: for every serial line transmitted over radio, a
TX-ok event is recorded exactly once when the transmit succeeds; when the
transmit fails no event of any kind is recorded (the failure is silent);
and receive mode is re-armed in both cases. -/
theorem tx_outcome_event_recording (st : LoopState) (inp : LoopInput)
    (hs : inp.serialAvailable = true) (hl : (trim inp.serialLine).length > 0) :
    (inp.txState = RADIOLIB_ERR_NONE →
        (loopStep st inp).2.countP isTxOkEventA = 1 ∧
        Action.displayEvent (Event.txOk (trim inp.serialLine)) ∈ (loopStep st inp).2) ∧
    (inp.txState ≠ RADIOLIB_ERR_NONE →
        (loopStep st inp).2.countP isTxOkEventA = 0 ∧
        (serialToRadioStep inp).countP isDisplayEventA = 0) ∧
    Action.startReceive ∈ (loopStep st inp).2 := by
  refine ⟨?_, ?_, ?_⟩
  · intro htx
    constructor
    · simp [loopStep, List.countP_append, (radioToSerialStep_counts inp).2.1,
        (heartbeatStep_counts st inp).2.2.1]
      simp only [serialToRadioStep, hs, if_true, hl, if_pos, htx]
      simp [isTxOkEventA, List.countP_append, List.countP_cons]
    · simp only [loopStep, serialToRadioStep, hs, if_true, hl, if_pos, htx]
      simp
  · intro htx
    constructor
    · simp [loopStep, List.countP_append, (radioToSerialStep_counts inp).2.1,
        (heartbeatStep_counts st inp).2.2.1]
      simp only [serialToRadioStep, hs, if_true, hl, if_pos, htx]
      simp [isTxOkEventA, List.countP_append, List.countP_cons]
    · simp only [serialToRadioStep, hs, if_true, hl, if_pos, htx]
      simp [isDisplayEventA, List.countP_append, List.countP_cons]
  · simp only [loopStep, serialToRadioStep, hs, if_true, hl, if_pos]
    simp

/-- A loop iteration whose transmit succeeds: serial input `"A"`
available, `lora.transmit` returns `0`, the radio poll times out. -/
def txOkIn : LoopInput := ⟨true, ['A'], 0, -6, [], 0, 0⟩

/-- Claim C2, witness: concrete instances of the amended theorem at a
successful and at a failing transmit. -/
theorem tx_outcome_event_recording_witness :
    ((loopStep ⟨0⟩ txOkIn).2.countP isTxOkEventA = 1 ∧
     Action.startReceive ∈ (loopStep ⟨0⟩ txOkIn).2) ∧
    ((loopStep ⟨0⟩ txFailIn).2.countP isTxOkEventA = 0 ∧
     Action.startReceive ∈ (loopStep ⟨0⟩ txFailIn).2) := by
  have h1 := tx_outcome_event_recording ⟨0⟩ txOkIn rfl (by decide)
  have h2 := tx_outcome_event_recording ⟨0⟩ txFailIn rfl (by decide)
  exact ⟨⟨(h1.1 rfl).1, h1.2.2⟩, ⟨(h2.2.1 (by decide)).1, h2.2.2⟩⟩

/-! ### Claim C3 -/

/-- A quiet-serial iteration in which the radio poll succeeds with message
`"B"` at `millis() = 900`. -/
def rxAt900 : LoopInput := ⟨false, [], 0, 0, ['B'], 900, 950⟩

/-- A fully idle iteration (no serial, poll timeout) at
`millis() = 1100`. -/
def quietAt1100 : LoopInput := ⟨false, [], 0, -6, [], 1100, 1150⟩

/-- Claim C3, code behaviour at the failing input: an RX-ok event occurs
at t = 900 ms, yet `lastActivity` stays 0 (real events never update it);
in the next iteration at t = 1100 ms — only 200 ms after the event — the
idle screen fires anyway. The code's own comment says the idle screen is
shown "if no recent activity", so real events were meant to reset the
timer, as the claim states. -/
theorem idle_heartbeat_ignores_events :
    (loopStep ⟨0⟩ rxAt900).2.countP isRxOkEventA = 1 ∧
    (loopStep ⟨0⟩ rxAt900).1 = ⟨0⟩ ∧
    Action.displayEvent Event.idle ∈
      (loopStep (loopStep ⟨0⟩ rxAt900).1 quietAt1100).2 := by decide

/-! ### Claim C4 -/

/-- A loop iteration fed a 300-character serial line (beyond the SX1262's
255-byte single-datagram limit); `lora.transmit` rejects it with status
`-4` (`RADIOLIB_ERR_PACKET_TOO_LONG`); radio poll times out. -/
def oversizeIn : LoopInput := ⟨true, List.replicate 300 'a', -4, -6, [], 0, 0⟩

/-- Claim C4, counterexample: the firmware performs no length check — the
full 300-character payload is handed to `lora.transmit` unmodified (so the
bridge neither rejects nor truncates it), and when the library rejects it
the iteration records no display event at all: the oversize payload is
silently dropped, contrary to the claim that it is signalled as a
reported error. -/
theorem oversize_passed_and_silent_cex :
    (loopStep ⟨0⟩ oversizeIn).2 =
      [Action.standby, Action.delayMs 5,
       Action.transmit (List.replicate 300 'a'), Action.startReceive] ∧
    (loopStep ⟨0⟩ oversizeIn).2.countP isDisplayEventA = 0 := by
  set_option maxRecDepth 10000 in decide

/-- Claim C4, amended: the bridge applies no payload-length limit of its
own — every non-empty trimmed serial line, of any length, is passed in
full to `lora.transmit`; when the transmit fails (as it does for an
oversize payload) the serial-to-radio block is exactly standby, settle
delay, transmit, re-arm receive, with no TX-ok event and no display event,
so the payload is dropped silently (and never truncated). -/
theorem oversize_no_length_check (st : LoopState) (inp : LoopInput)
    (hs : inp.serialAvailable = true) (hl : (trim inp.serialLine).length > 0)
    (htx : inp.txState ≠ RADIOLIB_ERR_NONE) :
    serialToRadioStep inp =
      [Action.standby, Action.delayMs 5, Action.transmit (trim inp.serialLine),
       Action.startReceive] ∧
    (loopStep st inp).2.countP isTxOkEventA = 0 ∧
    (serialToRadioStep inp).countP isDisplayEventA = 0 := by
  have hser : serialToRadioStep inp =
      [Action.standby, Action.delayMs 5, Action.transmit (trim inp.serialLine),
       Action.startReceive] := by
    simp only [serialToRadioStep, hs, if_true, hl, if_pos, htx]
    simp
  refine ⟨hser, ?_, ?_⟩
  · simp [loopStep, List.countP_append, (radioToSerialStep_counts inp).2.1,
      (heartbeatStep_counts st inp).2.2.1, hser, isTxOkEventA, List.countP_cons]
  · simp [hser, isDisplayEventA, List.countP_cons]

/-- Claim C4, witness: the amended theorem instantiated at the
300-character oversize input. -/
theorem oversize_no_length_check_witness :
    serialToRadioStep oversizeIn =
      [Action.standby, Action.delayMs 5,
       Action.transmit (trim oversizeIn.serialLine), Action.startReceive] ∧
    (loopStep ⟨0⟩ oversizeIn).2.countP isTxOkEventA = 0 ∧
    (serialToRadioStep oversizeIn).countP isDisplayEventA = 0 :=
  oversize_no_length_check ⟨0⟩ oversizeIn rfl
    (by set_option maxRecDepth 10000 in decide) (by decide)

/-! ### Claim C5 -/

/-- Claim C5 (confirmed): for every non-empty trimmed serial line, the
iteration's trace starts with standby, a 5 ms settle delay, and exactly
one transmit carrying the trimmed line; receive mode is re-armed after
the transmit (`startReceive` occurs later in the trace), and this holds
for every transmit outcome. -/
theorem serial_line_single_transmit (st : LoopState) (inp : LoopInput)
    (hs : inp.serialAvailable = true) (hl : trim inp.serialLine ≠ []) :
    (loopStep st inp).2.take 3 =
      [Action.standby, Action.delayMs 5, Action.transmit (trim inp.serialLine)] ∧
    Action.startReceive ∈ (loopStep st inp).2.drop 3 ∧
    (loopStep st inp).2.countP isTransmitA = 1 := by
  have hl' : (trim inp.serialLine).length > 0 := List.length_pos.mpr hl
  have hser : ∃ mid, serialToRadioStep inp =
      Action.standby :: Action.delayMs 5 :: Action.transmit (trim inp.serialLine)
        :: (mid ++ [Action.startReceive]) ∧ mid.countP isTransmitA = 0 := by
    simp only [serialToRadioStep, hs, if_true, hl', if_pos]
    by_cases htx : inp.txState = RADIOLIB_ERR_NONE
    · exact ⟨[Action.displayEvent (Event.txOk (trim inp.serialLine)),
        Action.delayMs 100], by simp [htx, isTransmitA, List.countP_cons]⟩
    · exact ⟨[], by simp [htx, isTransmitA]⟩
  obtain ⟨mid, hser, hmid⟩ := hser
  have htrace : (loopStep st inp).2 =
      Action.standby :: Action.delayMs 5 :: Action.transmit (trim inp.serialLine)
        :: (mid ++ [Action.startReceive] ++
            (radioToSerialStep inp ++ (heartbeatStep st inp).2)) := by
    simp [loopStep, hser]
  refine ⟨?_, ?_, ?_⟩
  · simp [htrace]
  · simp [htrace]
  · simp [htrace, List.countP_cons, List.countP_append, isTransmitA, hmid,
      (radioToSerialStep_counts inp).1, (heartbeatStep_counts st inp).1]

/-- The spec's scenario input: serial line `"TEST,12345,Hello World"`,
transmit succeeds, radio poll times out. -/
def scenarioIn : LoopInput := ⟨true, "TEST,12345,Hello World".toList, 0, -6, [], 0, 0⟩

/-- Claim C5, witness: the theorem instantiated at the spec's scenario
line. -/
theorem serial_line_single_transmit_witness :
    (loopStep ⟨0⟩ scenarioIn).2.take 3 =
      [Action.standby, Action.delayMs 5,
       Action.transmit (trim scenarioIn.serialLine)] ∧
    Action.startReceive ∈ (loopStep ⟨0⟩ scenarioIn).2.drop 3 ∧
    (loopStep ⟨0⟩ scenarioIn).2.countP isTransmitA = 1 :=
  serial_line_single_transmit ⟨0⟩ scenarioIn rfl (by decide)

/-! ### Claim C6 -/

/-- Claim C6 (confirmed): the system ends `setup()` in the terminal fault
state exactly when `lora.begin` fails; from the fault state no input
sequence ever produces a single action or leaves the state (all serial
and radio processing has halted); and from a running state no loop
iteration — whatever its transmit or receive outcome — ever transitions
to the fault state. -/
theorem fault_iff_init_failure :
    (∀ b : Int, (setup b).1 = SysState.fault ↔ b ≠ RADIOLIB_ERR_NONE) ∧
    (∀ inps : List LoopInput, runSys SysState.fault inps = (SysState.fault, [])) ∧
    (∀ (ls : LoopState) (inp : LoopInput),
        (sysStep (SysState.running ls) inp).1 ≠ SysState.fault) := by
  refine ⟨?_, ?_, ?_⟩
  · intro b
    simp only [setup]
    split_ifs with h <;> simp [h]
  · intro inps
    induction inps with
    | nil => rfl
    | cons i rest ih => simp [runSys, sysStep, ih]
  · intro ls inp
    simp [sysStep]

/-! ### Claim C7 -/

/-- Claim C7 (confirmed): in every iteration whose radio poll returns a
received message, the trace contains exactly one serial write — and it
carries the received bytes (the write appends the line terminator) — and
exactly one RX-ok display event, again carrying the received bytes. -/
theorem received_forward_exactly_once (st : LoopState) (inp : LoopInput)
    (hrx : inp.rxState = RADIOLIB_ERR_NONE) :
    (loopStep st inp).2.countP isSerialPrintlnA = 1 ∧
    Action.serialPrintln inp.rxMessage ∈ (loopStep st inp).2 ∧
    (loopStep st inp).2.countP isRxOkEventA = 1 ∧
    Action.displayEvent (Event.rxOk inp.rxMessage) ∈ (loopStep st inp).2 := by
  have hradio : radioToSerialStep inp =
      [Action.serialPrintln inp.rxMessage,
       Action.displayEvent (Event.rxOk inp.rxMessage), Action.delayMs 100] := by
    simp [radioToSerialStep, hrx]
  refine ⟨?_, ?_, ?_, ?_⟩
  · simp [loopStep, List.countP_append, (serialToRadioStep_counts inp).1,
      (heartbeatStep_counts st inp).2.1, hradio, isSerialPrintlnA,
      List.countP_cons]
  · simp [loopStep, hradio]
  · simp [loopStep, List.countP_append, (serialToRadioStep_counts inp).2.1,
      (heartbeatStep_counts st inp).2.2.2.1, hradio, isRxOkEventA,
      List.countP_cons]
  · simp [loopStep, hradio]

/-- A quiet-serial iteration whose radio poll returns the message
`"ping"`. -/
def rxPingIn : LoopInput := ⟨false, [], 0, 0, "ping".toList, 0, 0⟩

/-- Claim C7, witness: the theorem instantiated at a received `"ping"`
datagram. -/
theorem received_forward_exactly_once_witness :
    (loopStep ⟨0⟩ rxPingIn).2.countP isSerialPrintlnA = 1 ∧
    Action.serialPrintln rxPingIn.rxMessage ∈ (loopStep ⟨0⟩ rxPingIn).2 ∧
    (loopStep ⟨0⟩ rxPingIn).2.countP isRxOkEventA = 1 ∧
    Action.displayEvent (Event.rxOk rxPingIn.rxMessage) ∈ (loopStep ⟨0⟩ rxPingIn).2 :=
  received_forward_exactly_once ⟨0⟩ rxPingIn rfl

/-! ### Claim C8 -/

/-- Claim C8 (confirmed): a timed-out radio poll contributes nothing to
the iteration — the radio-to-serial block is empty, and the whole trace
contains no serial write, no RX-ok event and no RX-error event; by
contrast every poll status other than success and timeout records exactly
one RX-error event, so timeout is distinguished from an error. -/
theorem timeout_produces_nothing :
    (∀ (st : LoopState) (inp : LoopInput),
        inp.rxState = RADIOLIB_ERR_RX_TIMEOUT →
        radioToSerialStep inp = [] ∧
        (loopStep st inp).2.countP isSerialPrintlnA = 0 ∧
        (loopStep st inp).2.countP isRxOkEventA = 0 ∧
        (loopStep st inp).2.countP isRxErrorEventA = 0) ∧
    (∀ (st : LoopState) (inp : LoopInput),
        inp.rxState ≠ RADIOLIB_ERR_NONE → inp.rxState ≠ RADIOLIB_ERR_RX_TIMEOUT →
        (loopStep st inp).2.countP isRxErrorEventA = 1) := by
  constructor
  · intro st inp hrx
    have hradio : radioToSerialStep inp = [] := by
      simp [radioToSerialStep, hrx, RADIOLIB_ERR_RX_TIMEOUT, RADIOLIB_ERR_NONE]
    refine ⟨hradio, ?_, ?_, ?_⟩ <;>
      simp [loopStep, List.countP_append, hradio,
        (serialToRadioStep_counts inp).1, (serialToRadioStep_counts inp).2.1,
        (serialToRadioStep_counts inp).2.2.1,
        (heartbeatStep_counts st inp).2.1, (heartbeatStep_counts st inp).2.2.2.1,
        (heartbeatStep_counts st inp).2.2.2.2]
  · intro st inp hok htm
    have hradio : radioToSerialStep inp =
        [Action.displayEvent (Event.rxError inp.rxState), Action.delayMs 100] := by
      simp [radioToSerialStep, hok, htm]
    simp [loopStep, List.countP_append, hradio,
      (serialToRadioStep_counts inp).2.2.1,
      (heartbeatStep_counts st inp).2.2.2.2, isRxErrorEventA, List.countP_cons]

/-- A fully idle iteration: no serial input and a timed-out radio poll. -/
def timeoutIn : LoopInput := ⟨false, [], 0, -6, [], 0, 0⟩

/-- A quiet-serial iteration whose radio poll reports hardware error
code 3 (the spec's RX-error scenario). -/
def rxErrorIn : LoopInput := ⟨false, [], 0, 3, [], 0, 0⟩

/-- Claim C8, witness: the theorem's two parts instantiated at a timeout
poll and at an error-code-3 poll. -/
theorem timeout_produces_nothing_witness :
    (radioToSerialStep timeoutIn = [] ∧
     (loopStep ⟨0⟩ timeoutIn).2.countP isSerialPrintlnA = 0 ∧
     (loopStep ⟨0⟩ timeoutIn).2.countP isRxOkEventA = 0 ∧
     (loopStep ⟨0⟩ timeoutIn).2.countP isRxErrorEventA = 0) ∧
    (loopStep ⟨0⟩ rxErrorIn).2.countP isRxErrorEventA = 1 :=
  ⟨timeout_produces_nothing.1 ⟨0⟩ timeoutIn rfl,
   timeout_produces_nothing.2 ⟨0⟩ rxErrorIn (by decide) (by decide)⟩

/-! ### Claim C9 -/

/-- Claim C9 (confirmed): for every message and every width-measurement
function, the drawn lines of `drawWrappedString` concatenate back to the
input message — no character is hyphenated, dropped or duplicated — and
the wrap breaks exactly when the next character would overflow: every
line break is forced (each drawn line except the last, extended by the
very next character of the message, would measure strictly wider than the
maximum width), and conversely no drawn line continues past an overflow
point (every prefix with at least two characters of every drawn line
measures within the maximum width; a lone character that by itself
overflows is the unavoidable character-granular exception). -/
theorem drawWrappedString_greedy_no_loss (width : List Char → Nat)
    (maxWidth : Nat) (msg : List Char) :
    (drawWrappedString width maxWidth msg).flatten = msg ∧
    (∀ k : Nat, k + 1 < (drawWrappedString width maxWidth msg).length →
      ((drawWrappedString width maxWidth msg).drop (k + 1)).flatten ≠ [] ∧
      width ((drawWrappedString width maxWidth msg).getD k [] ++
        [((drawWrappedString width maxWidth msg).drop (k + 1)).flatten.headD ' '])
        > maxWidth) ∧
    (∀ l ∈ drawWrappedString width maxWidth msg,
      ∀ p : List Char, p <+: l → 2 ≤ p.length → width p ≤ maxWidth) := by
  refine ⟨?_, ?_, ?_⟩
  · simpa [drawWrappedString] using wrapGo_flatten width maxWidth msg []
  · intro k hk
    obtain ⟨d, rest, h1, h2⟩ := wrapGo_break width maxWidth msg [] k hk
    simp only [drawWrappedString] at h1 ⊢
    rw [h1]
    exact ⟨by simp, by simpa using h2⟩
  · intro l hl p hp hlen
    refine wrapGo_lines_bounded width maxWidth msg [] ?_ l hl p hp hlen
    intro q hq hqlen
    have := hq.length_le
    simp only [List.length_nil, Nat.le_zero] at this
    omega

/-- Claim C9, witness: with width = character count and maximum width 2,
the message `"abcdef"` wraps into lines whose concatenation is the
message, the first break (after line 0) is forced, and the drawn line
`"ab"` (with its own two-character prefix) measures within the maximum
width. -/
theorem drawWrappedString_greedy_no_loss_witness :
    (drawWrappedString List.length 2 ("abcdef".toList)).flatten = "abcdef".toList ∧
    (((drawWrappedString List.length 2 ("abcdef".toList)).drop 1).flatten ≠ [] ∧
     List.length ((drawWrappedString List.length 2 ("abcdef".toList)).getD 0 [] ++
       [((drawWrappedString List.length 2 ("abcdef".toList)).drop 1).flatten.headD ' '])
       > 2) ∧
    List.length (['a', 'b'] : List Char) ≤ 2 :=
  ⟨(drawWrappedString_greedy_no_loss List.length 2 ("abcdef".toList)).1,
   (drawWrappedString_greedy_no_loss List.length 2 ("abcdef".toList)).2.1 0 (by decide),
   (drawWrappedString_greedy_no_loss List.length 2 ("abcdef".toList)).2.2
     ['a', 'b'] (by decide) ['a', 'b'] (by decide) (by decide)⟩

/-! ### Claim C10 -/

/-- Claim C10 (confirmed): in the serial-echo test sketch, whenever
serial data is available, a line whose trimmed content is non-empty is
answered by exactly one serial write, consisting of the `"ECHO: "` marker
followed by the trimmed content (the write appends the terminator); a
line that is blank or whitespace-only after trimming produces no serial
output at all. -/
theorem echo_reply_exact (st : EchoState) (inp : EchoInput)
    (hs : inp.serial2Available = true) :
    (trim inp.serialLine ≠ [] →
        (echoLoopStep st inp).2.countP isSerialPrintlnA = 1 ∧
        Action.serialPrintln (echoTag ++ trim inp.serialLine) ∈
          (echoLoopStep st inp).2) ∧
    (trim inp.serialLine = [] →
        (echoLoopStep st inp).2.countP isSerialPrintlnA = 0) := by
  constructor
  · intro hne
    have hl : (trim inp.serialLine).length > 0 := List.length_pos.mpr hne
    simp only [echoLoopStep, hs, if_true, hl, if_pos]
    split_ifs <;>
      simp [isSerialPrintlnA, List.countP_append, List.countP_cons]
  · intro hemp
    simp only [echoLoopStep, hs, if_true, hemp]
    split_ifs <;>
      simp_all [isSerialPrintlnA, List.countP_append, List.countP_cons]

/-- An echo-sketch iteration fed the line `"  hi "` (trims to `"hi"`). -/
def echoHiIn : EchoInput := ⟨true, "  hi ".toList, 0, 0⟩

/-- An echo-sketch iteration fed a whitespace-only line. -/
def echoBlankIn : EchoInput := ⟨true, "   ".toList, 0, 0⟩

/-- Claim C10, witness: the theorem instantiated at the line `"  hi "`
(echoed as `"ECHO: hi"`) and at a whitespace-only line (no output). -/
theorem echo_reply_exact_witness :
    ((echoLoopStep ⟨0⟩ echoHiIn).2.countP isSerialPrintlnA = 1 ∧
     Action.serialPrintln (echoTag ++ trim echoHiIn.serialLine) ∈
       (echoLoopStep ⟨0⟩ echoHiIn).2) ∧
    (echoLoopStep ⟨0⟩ echoBlankIn).2.countP isSerialPrintlnA = 0 := by
  have h1 := echo_reply_exact ⟨0⟩ echoHiIn rfl
  have h2 := echo_reply_exact ⟨0⟩ echoBlankIn rfl
  exact ⟨h1.1 (by decide), h2.2 (by decide)⟩

end HeltecBridge
